import Mathlib

/-
Verification of the DataChat repository (src/streamlit_app.py) against its
natural-language specification.

The program is a single-file Streamlit application.  Its self-contained logic
is embedded below:

  * `calculate_cost`   (lines 60-66)  token/cost estimation over a dataframe;
  * `OutputParser_parse` (lines 19-26) the response-rendering hook;
  * `write_read`       (lines 48-58)  the Google-Cloud-Storage CSV loader;
  * the local-upload control flow of `main` (lines 87-101).

External collaborators (tiktoken, pandasai, streamlit, google-cloud-storage,
pandas readers) are black boxes: they are represented by parameters (the
tokenizer `encode`, the blob contents), by recorded invocation arguments
(the `SmartDataframe` constructor call), or by UI-event values (the
`st.dataframe` / `st.image` / `st.write` / `st.error` calls).

Machine-checked Python-surface facts: line 100 of the source,

    with get_openai_callback() as cb if llm_choice == "OpenAI" else None:

is not valid Python (CPython: SyntaxError, cannot assign to conditional
expression).  A small model of the relevant fragment of the CPython grammar
is included to establish this.
-/

/-! ## Cost estimator (src/streamlit_app.py lines 60-66)

`calculate_cost(df)` iterates over the rows of the dataframe, joins the
string forms of the cells of each row with single spaces, tokenizes the
joined string with the tiktoken encoding for gpt-3.5-turbo, sums the token
counts and reports the total together with `total_tokens * 0.0005 / 1000`.

A row is modelled as the list of the textual forms of its cells in column
order (the source's `row.values.astype(str)`); a dataframe, for the purposes
of this function, as the list of its rows.  The tokenizer is external and is
abstracted as a function `encode : String -> List Nat` returning the token
ids of a string, exactly as `tiktoken`'s `encoding.encode` does. -/

/-- Model of Python `' '.join(cells)`: the cells joined by single spaces. -/
def joinRow (cells : List String) : String :=
  String.intercalate " " cells

/-- Lines 60-66, `calculate_cost`: the pair (total token count, reported
cost).  `total_tokens` is the Python generator sum
`sum(len(encoding.encode(' '.join(row.values.astype(str)))) for _, row in df.iterrows())`,
modelled as a left fold over the rows; the reported cost is
`total_tokens * cost_per_token / 1000` with `cost_per_token = 0.0005`. -/
def calculate_cost (encode : String → List Nat) (df : List (List String)) :
    Nat × ℚ :=
  let cost_per_token : ℚ := 0.0005
  let total_tokens : Nat :=
    df.foldl (fun acc row => acc + (encode (joinRow row)).length) 0
  (total_tokens, (total_tokens : ℚ) * cost_per_token / 1000)

/-- Token count as the specification words it: for each row, join the
textual form of every cell in column order with single spaces, tokenize the
joined string with the reference tokenizer, and sum the per-row counts. -/
def spec_tokenCount (encode : String → List Nat) (df : List (List String)) :
    Nat :=
  (df.map (fun row => (encode (joinRow row)).length)).sum

/-! ## Response renderer (src/streamlit_app.py lines 15-26)

`OutputParser.parse(result)` receives the query engine's result, a dict with
a `type` tag and a `value` payload, and dispatches on the tag:
`"dataframe"` to `st.dataframe`, `"plot"` to `st.image`, anything else to
`st.write`.  The payload is opaque to this function and is modelled as a
string; the streamlit widget calls are modelled as emitted UI events. -/

/-- The query engine's result value: the `type` tag and the opaque payload
of the result dict handed to `OutputParser.parse`. -/
structure PandasResult where
  ty : String
  value : String
  deriving DecidableEq

/-- UI events emitted by the renderer: `st.dataframe`, `st.image`,
`st.write` respectively, each carrying the payload they were given. -/
inductive RenderEvent where
  | dataframeView (v : String)
  | imageView (v : String)
  | textView (v : String)
  deriving DecidableEq

/-- Lines 19-26, `OutputParser.parse`: dispatch on `result['type']`;
`"dataframe"` is shown with `st.dataframe`, `"plot"` with `st.image`, and
every other tag with `st.write`.  The returned list is the sequence of
widget calls the branch performs. -/
def OutputParser_parse (result : PandasResult) : List RenderEvent :=
  if result.ty = "dataframe" then
    [RenderEvent.dataframeView result.value]
  else if result.ty = "plot" then
    [RenderEvent.imageView result.value]
  else
    [RenderEvent.textView result.value]

/-! ## Python surface model for line 100 of src/streamlit_app.py

Line 100 of the source reads (inside `main`):

    with get_openai_callback() as cb if llm_choice == "OpenAI" else None:

Whether this line is Python is decided by the CPython grammar of the
with-statement:

    with_stmt : 'with' with_item (',' with_item)* ':' block
    with_item : expression 'as' star_target lookahead-in (',' ')' ':')
              | expression

where `expression` includes the conditional (ternary) form
`or_test 'if' or_test 'else' expression` and a star_target for an `as`
clause must be an assignable target (a name, attribute reference,
subscription, or a target list) - never a conditional expression.

The model below embeds the fragment of that grammar exercised by line 100:
names, string literals, `None`, zero-argument calls, `==` comparisons,
conditional expressions, and the single-item with-statement.  The token
list `line100Tokens` is the tokenization of line 100. -/

/-- Python tokens occurring on line 100. -/
inductive PyTok where
  | kw_with | kw_as | kw_if | kw_else | kw_None
  | ident (s : String)
  | strLit (s : String)
  | lparen | rparen
  | eqeq
  | colon
  deriving DecidableEq

/-- Python expressions of the grammar fragment exercised by line 100. -/
inductive PyExpr where
  | name (s : String)
  | str (s : String)
  | noneLit
  | call (f : PyExpr)
  | compare (a b : PyExpr)
  | cond (thenE condE elseE : PyExpr)
  deriving DecidableEq

/-- Python assignable targets: in the full grammar a target is a name, an
attribute reference, a subscription, or a (possibly starred) target list.
Of these only plain names can appear in our token fragment; string
literals, `None`, calls, comparisons and conditional expressions are never
assignable (CPython: `cannot assign to conditional expression` etc.). -/
def validAssignTarget : PyExpr → Bool
  | PyExpr.name _ => true
  | _ => false

/-- Grammar `atom`: a name, a string literal, or `None`. -/
def parseAtom : List PyTok → Option (PyExpr × List PyTok)
  | PyTok.ident s :: rest => some (PyExpr.name s, rest)
  | PyTok.strLit s :: rest => some (PyExpr.str s, rest)
  | PyTok.kw_None :: rest => some (PyExpr.noneLit, rest)
  | _ => none

/-- Grammar `primary`: an atom followed by call trailers; the only trailer
in the fragment is the zero-argument call `()`. -/
def parseTrailers : PyExpr → List PyTok → PyExpr × List PyTok
  | e, PyTok.lparen :: PyTok.rparen :: rest => parseTrailers (PyExpr.call e) rest
  | e, rest => (e, rest)

/-- Grammar `primary` = atom trailer*. -/
def parsePrimary (ts : List PyTok) : Option (PyExpr × List PyTok) :=
  match parseAtom ts with
  | some (e, rest) => some (parseTrailers e rest)
  | none => none

/-- Grammar `comparison`: a primary optionally compared with `==`. -/
def parseComparison (ts : List PyTok) : Option (PyExpr × List PyTok) :=
  match parsePrimary ts with
  | some (a, PyTok.eqeq :: rest) =>
    match parsePrimary rest with
    | some (b, rest2) => some (PyExpr.compare a b, rest2)
    | none => none
  | some (a, rest) => some (a, rest)
  | none => none

/-- Grammar `expression` (conditional form), with fuel for the
right-recursion: `comparison ('if' comparison 'else' expression)?`. -/
def parseCondExpr : Nat → List PyTok → Option (PyExpr × List PyTok)
  | 0, _ => none
  | Nat.succ fuel, ts =>
    match parseComparison ts with
    | some (a, PyTok.kw_if :: rest) =>
      match parseComparison rest with
      | some (c, PyTok.kw_else :: rest2) =>
        match parseCondExpr fuel rest2 with
        | some (b, rest3) => some (PyExpr.cond a c b, rest3)
        | none => none
      | _ => none
    | some (a, rest) => some (a, rest)
    | none => none

/-- Grammar `expression` with enough fuel for the whole token list. -/
def parseExpression (ts : List PyTok) : Option (PyExpr × List PyTok) :=
  parseCondExpr (ts.length + 1) ts

/-- Grammar `star_target` restricted to the targets whose tokens occur in
the fragment: a plain name. -/
def parseStarTarget : List PyTok → Option (PyExpr × List PyTok)
  | PyTok.ident s :: rest => some (PyExpr.name s, rest)
  | _ => none

/-- The positive lookahead of the PEG `with_item` rule: after
`expression 'as' star_target` the next token must be `,`, `)` or `:`. -/
def withItemLookahead : List PyTok → Bool
  | PyTok.colon :: _ => true
  | _ => false

/-- Grammar `with_item`, per the CPython PEG grammar: first try
`expression 'as' star_target` with the lookahead, otherwise fall back to a
bare `expression`.  Returns the context expression, the optional `as`
target, and the remaining tokens. -/
def parseWithItem (ts : List PyTok) :
    Option (PyExpr × Option PyExpr × List PyTok) :=
  match parseExpression ts with
  | none => none
  | some (e, rest) =>
    match rest with
    | PyTok.kw_as :: rest1 =>
      match parseStarTarget rest1 with
      | some (t, rest2) =>
        if withItemLookahead rest2 then some (e, some t, rest2)
        else some (e, none, rest)
      | none => some (e, none, rest)
    | _ => some (e, none, rest)

/-- Grammar `with_stmt` in its single-item form, applied to one logical
line: `'with' with_item ':'` with the line ending at the colon (the block
is on the following lines).  `none` means the line is a syntax error. -/
def parseWithStmt (ts : List PyTok) : Option (PyExpr × Option PyExpr) :=
  match ts with
  | PyTok.kw_with :: rest =>
    match parseWithItem rest with
    | some (e, t, [PyTok.colon]) => some (e, t)
    | _ => none
  | _ => none

/-- The tokenization of line 100 of src/streamlit_app.py:
`with get_openai_callback() as cb if llm_choice == "OpenAI" else None:`. -/
def line100Tokens : List PyTok :=
  [PyTok.kw_with,
   PyTok.ident "get_openai_callback", PyTok.lparen, PyTok.rparen,
   PyTok.kw_as, PyTok.ident "cb",
   PyTok.kw_if, PyTok.ident "llm_choice", PyTok.eqeq, PyTok.strLit "OpenAI",
   PyTok.kw_else, PyTok.kw_None,
   PyTok.colon]

/-- The tokens following `as` on line 100:
`cb if llm_choice == "OpenAI" else None`. -/
def line100AsTargetTokens : List PyTok :=
  [PyTok.ident "cb",
   PyTok.kw_if, PyTok.ident "llm_choice", PyTok.eqeq, PyTok.strLit "OpenAI",
   PyTok.kw_else, PyTok.kw_None]

/-- The expression those tokens denote: the conditional expression
`cb if llm_choice == "OpenAI" else None`, which CPython's error path
reports as the attempted assignment target of the `as` clause. -/
def line100AsTarget : PyExpr :=
  PyExpr.cond (PyExpr.name "cb")
    (PyExpr.compare (PyExpr.name "llm_choice") (PyExpr.str "OpenAI"))
    PyExpr.noneLit

/-! ## Cloud-blob loader (src/streamlit_app.py lines 48-58)

`write_read(bucket_name, blob_name, projectid)` opens the named blob for
streaming read, parses it with `csv.reader`, takes the first row as the
header, collects the remaining rows, and returns

    pd.DataFrame([{header[i]: row[i] for i in range(len(header))} for row in data])

The Google Cloud SDK objects and the `csv` module are external: the result
of opening and reading the blob is abstracted as a parameter, either a
storage error raised by the SDK (`google.api_core.exceptions.NotFound`,
authentication failures) or the list of parsed CSV rows, each row a list of
field strings.

The Python pieces are modelled exactly:
  * `next(reader)` raises `StopIteration` on an empty stream;
  * the dict comprehension inserts `header[i] : row[i]` for `i` from `0` to
    `len(header)-1` in order, later duplicate keys overwriting earlier ones
    in place (Python dict semantics); `row[i]` raises `IndexError` when
    `i >= len(row)`;
  * `pd.DataFrame(list-of-dicts)` has one row per record and one column per
    distinct key in order of first appearance; a record missing a column's
    key yields a missing value (`NaN`, modelled as `Option.none`). -/

/-- Python exceptions raised by the pure part of `write_read`. -/
inductive PyError where
  | indexError
  | stopIteration
  deriving DecidableEq

/-- Errors raised by the external storage SDK while opening or reading the
blob. -/
inductive GcsError where
  | blobNotFound
  | authError
  deriving DecidableEq

/-- Exceptions that can escape `write_read`: a storage-SDK error or a
Python error from the CSV-to-records conversion. -/
inductive WRError where
  | storage (e : GcsError)
  | py (e : PyError)
  deriving DecidableEq

/-- Python dict insertion `d[k] = v` on an insertion-ordered dict modelled
as an association list: if the key is present its value is updated in
place, otherwise the pair is appended. -/
def pyDictInsert (d : List (String × String)) (k v : String) :
    List (String × String) :=
  if k ∈ d.map Prod.fst then
    d.map (fun p => if p.1 = k then (k, v) else p)
  else
    d ++ [(k, v)]

/-- The dict comprehension `{header[i]: row[i] for i in range(len(header))}`
as a loop over the header keys carrying the running index `i`: `row[i]?`
is `none` exactly when Python's `row[i]` raises `IndexError`. -/
def buildRecordGo (row : List String) :
    List String → Nat → List (String × String) →
    Except PyError (List (String × String))
  | [], _, d => Except.ok d
  | k :: ks, i, d =>
    match row[i]? with
    | some v => buildRecordGo row ks (i + 1) (pyDictInsert d k v)
    | none => Except.error PyError.indexError

/-- One record of line 58: `{header[i]: row[i] for i in range(len(header))}`. -/
def buildRecord (header row : List String) :
    Except PyError (List (String × String)) :=
  buildRecordGo row header 0 []

/-- The outer comprehension of line 58, `[{...} for row in data]`: the
records in order, with the first raised exception propagating. -/
def buildRecords (header : List String) :
    List (List String) → Except PyError (List (List (String × String)))
  | [] => Except.ok []
  | row :: rows =>
    match buildRecord header row with
    | Except.error e => Except.error e
    | Except.ok rec =>
      match buildRecords header rows with
      | Except.error e => Except.error e
      | Except.ok recs => Except.ok (rec :: recs)

/-- The in-memory table: pandas DataFrame with named columns and rows of
optional cell values (`none` is pandas `NaN` for a missing key). -/
structure DataFrame where
  columns : List String
  rows : List (List (Option String))
  deriving DecidableEq

/-- Column collection of `pd.DataFrame(list-of-dicts)`: fold one record's
keys into the accumulated column list, keeping first-appearance order. -/
def addRecordCols (acc : List String) (rec : List (String × String)) :
    List String :=
  rec.foldl (fun a kv => if kv.1 ∈ a then a else a ++ [kv.1]) acc

/-- `pd.DataFrame(records)` for a list of string-keyed records: columns are
the distinct keys in order of first appearance; each row lists the record's
value under each column, `none` where the key is absent. -/
def pd_DataFrame (records : List (List (String × String))) : DataFrame :=
  let cols := records.foldl addRecordCols []
  { columns := cols,
    rows := records.map (fun rec => cols.map (fun c => rec.lookup c)) }

/-- Lines 48-58, `write_read`: given the outcome of the blob read (storage
error, or the parsed CSV rows), take the first row as the header
(`next(reader)`, `StopIteration` if empty), build one record per data row,
and construct the DataFrame. -/
def write_read (blobContent : Except GcsError (List (List String))) :
    Except WRError DataFrame :=
  match blobContent with
  | Except.error e => Except.error (WRError.storage e)
  | Except.ok [] => Except.error (WRError.py PyError.stopIteration)
  | Except.ok (header :: data) =>
    match buildRecords header data with
    | Except.error e => Except.error (WRError.py e)
    | Except.ok records => Except.ok (pd_DataFrame records)

/-! ## The Google Storage branch of `main` (src/streamlit_app.py lines 111-117)

    bucket_name = st.text_input("Provide your Google Cloud Storage bucket name")
    blob_name = st.text_input("Provide the blob/object name")
    if not bucket_name or not blob_name: st.stop()
    df_bq = write_read(bucket_name, blob_name, projectid)
    st.write("Data Preview:")
    st.dataframe(df_bq.head())

There is no try/except around the `write_read` call: an exception raised
inside it leaves `main` uncaught.  The branch is modelled as the pair of
the run outcome and the UI events the repository code emits;
`GcsUIEvent.errorMessage` models `st.error`, which this branch never calls. -/

/-- How a run of the Google Storage branch ends: halted by `st.stop()`
(missing input), completed, or aborted by an exception that no repository
code catches. -/
inductive GcsOutcome where
  | stopped
  | finished
  | uncaughtException (e : WRError)
  deriving DecidableEq

/-- UI output of the Google Storage branch: `st.write` text,
`st.dataframe` of a table, or an `st.error` message. -/
inductive GcsUIEvent where
  | write (s : String)
  | dataframeView (d : DataFrame)
  | errorMessage (s : String)
  deriving DecidableEq

/-- Model of `df.head()`: the first five rows of the DataFrame. -/
def DataFrame.head (d : DataFrame) : DataFrame :=
  { d with rows := d.rows.take 5 }

/-- Lines 111-117: the Google Storage branch of `main`.  Empty bucket or
blob name halts via `st.stop()`; otherwise `write_read` runs with no
exception handler around it, so an error aborts the run with no UI event,
and on success the preview is written. -/
def gcsBranch (bucket_name blob_name : String)
    (blobContent : Except GcsError (List (List String))) :
    GcsOutcome × List GcsUIEvent :=
  if bucket_name = "" ∨ blob_name = "" then
    (GcsOutcome.stopped, [])
  else
    match write_read blobContent with
    | Except.error e => (GcsOutcome.uncaughtException e, [])
    | Except.ok df_bq =>
      (GcsOutcome.finished,
       [GcsUIEvent.write "Data Preview:",
        GcsUIEvent.dataframeView df_bq.head])

/-! ## The local-upload flow of `main` (src/streamlit_app.py lines 87-101)

    col_desc = st.radio("Do you want to provide column descriptors?", ("Yes", "No"))
    addon = st.text_input("Enter your column description ...") if col_desc == "Yes" else "None"

    if addon:
        llm_choice = get_llm()
        llm = OpenAI(api_token=OPENAI_API_KEY) if llm_choice == "OpenAI" else GoogleGemini(api_key=GOOGLE_API_KEY)
        sdf = SmartDataframe(PandasConnector(..., field_descriptions=addon),
                             (the dict setting enable_cache to False),
                             config=(the dict with llm, conversational False, response_parser OutputParser))
        prompt = st.text_input("Enter your question/prompt.")
        if not prompt: st.stop()
        ...dispatch (line 100 onward)...

The pandasai constructors are external; the `SmartDataframe` construction
is modelled as a record of the arguments the call site passes: the
connector's `field_descriptions`, the second positional argument (the dict
that sets `enable_cache` to `False`), and the keyword `config` dict.
Python's `if addon:` tests string truthiness, i.e. `addon` nonempty. -/

/-- The selected LLM backend object of line 92: `OpenAI(api_token=...)` or
`GoogleGemini(api_key=...)`. -/
inductive LLMBackend where
  | openAI (api_token : String)
  | googleGemini (api_key : String)
  deriving DecidableEq

/-- Values stored in the configuration dicts passed to `SmartDataframe`. -/
inductive ConfigVal where
  | boolVal (b : Bool)
  | llmVal (l : LLMBackend)
  | outputParserHook
  deriving DecidableEq

/-- The arguments the call site of lines 93-95 passes to the external
`SmartDataframe` constructor: the connector's `field_descriptions`
keyword, the second positional argument (a dict with the single entry
`enable_cache` set to `False`), and the keyword `config` dict. -/
structure SmartDataframeCall where
  field_descriptions : String
  second_arg : List (String × ConfigVal)
  config : List (String × ConfigVal)
  deriving DecidableEq

/-- Line 92: the backend chosen from the radio value, closing over the two
API-key environment variables. -/
def chooseLLM (llm_choice openai_key google_key : String) : LLMBackend :=
  if llm_choice = "OpenAI" then LLMBackend.openAI openai_key
  else LLMBackend.googleGemini google_key

/-- Lines 93-95: the `SmartDataframe` constructor invocation built from the
column-description string and the chosen backend. -/
def sdfCall (addon : String) (llm : LLMBackend) : SmartDataframeCall :=
  { field_descriptions := addon,
    second_arg := [("enable_cache", ConfigVal.boolVal false)],
    config := [("llm", ConfigVal.llmVal llm),
               ("conversational", ConfigVal.boolVal false),
               ("response_parser", ConfigVal.outputParserHook)] }

/-- Line 88: the `addon` value - the entered description text when the
radio said "Yes", the literal string "None" otherwise. -/
def addon_value (col_desc descText : String) : String :=
  if col_desc = "Yes" then descText else "None"

/-- The interactions of the guarded region of lines 90-101, in program
order: the backend radio (`get_llm`), the engine construction with its
recorded arguments, the prompt input, and - when the prompt is nonempty -
the chat dispatch of line 100 onward. -/
inductive FlowStep where
  | selectBackend
  | initEngine (call : SmartDataframeCall)
  | enterPrompt
  | dispatch
  deriving DecidableEq

/-- Lines 87-101 after the data preview: the steps of the run as a function
of the column-descriptor radio value, the description text, the backend
radio value, the prompt text, and the two API keys.  `if addon:` guards
the whole region; `if not prompt: st.stop()` guards the dispatch. -/
def localFlowTail (col_desc descText llm_choice prompt openai_key google_key :
    String) : List FlowStep :=
  let addon := addon_value col_desc descText
  if addon ≠ "" then
    [FlowStep.selectBackend,
     FlowStep.initEngine (sdfCall addon (chooseLLM llm_choice openai_key google_key)),
     FlowStep.enterPrompt] ++
    (if prompt ≠ "" then [FlowStep.dispatch] else [])
  else
    []

/-! ## Theorems -/

/-- Helper: the generator sum of `calculate_cost` as a mapped sum. -/
theorem calc_cost_tokens_eq (encode : String → List Nat) :
    ∀ (rows : List (List String)) (a : Nat),
      rows.foldl (fun acc row => acc + (encode (joinRow row)).length) a
        = a + spec_tokenCount encode rows := by
  intro rows
  induction rows with
  | nil => intro a; simp [spec_tokenCount]
  | cons r rs ih =>
    intro a
    simp only [List.foldl_cons, ih, spec_tokenCount, List.map_cons,
      List.sum_cons]
    omega

/-- Helper: `calculate_cost` returns the specification token count and the
cost `token_count * 0.0005 / 1000`. -/
theorem calculate_cost_eq (encode : String → List Nat)
    (df : List (List String)) :
    calculate_cost encode df =
      (spec_tokenCount encode df,
       (spec_tokenCount encode df : ℚ) * 0.0005 / 1000) := by
  have h := calc_cost_tokens_eq encode df 0
  simp only [Nat.zero_add] at h
  simp only [calculate_cost, h]

/-- C1: for every loaded table, the cost estimator's token count joins the
textual form of every cell of a row in column order with single spaces,
tokenizes the joined string with the reference tokenizer, and sums the
per-row counts; the reported estimated cost equals
`token_count * 0.0005 / 1000`. -/
theorem calculate_cost_matches_spec (encode : String → List Nat)
    (df : List (List String)) :
    (calculate_cost encode df).1 = spec_tokenCount encode df ∧
    (calculate_cost encode df).2 =
      ((calculate_cost encode df).1 : ℚ) * 0.0005 / 1000 := by
  rw [calculate_cost_eq]
  exact ⟨rfl, rfl⟩

/-- C8: appending a row to a table never decreases the cost estimator's
token count, nor the estimated cost. -/
theorem calculate_cost_monotone_append (encode : String → List Nat)
    (rows : List (List String)) (newRow : List String) :
    (calculate_cost encode rows).1
      ≤ (calculate_cost encode (rows ++ [newRow])).1 ∧
    (calculate_cost encode rows).2
      ≤ (calculate_cost encode (rows ++ [newRow])).2 := by
  rw [calculate_cost_eq, calculate_cost_eq]
  have ht : spec_tokenCount encode rows
      ≤ spec_tokenCount encode (rows ++ [newRow]) := by
    simp only [spec_tokenCount, List.map_append, List.sum_append]
    exact Nat.le_add_right _ _
  refine ⟨ht, ?_⟩
  have hq : (spec_tokenCount encode rows : ℚ)
      ≤ (spec_tokenCount encode (rows ++ [newRow]) : ℚ) := by
    exact_mod_cast ht
  have h1 : (spec_tokenCount encode rows : ℚ) * 0.0005
      ≤ (spec_tokenCount encode (rows ++ [newRow]) : ℚ) * 0.0005 :=
    mul_le_mul_of_nonneg_right hq (by norm_num)
  exact (div_le_div_iff_of_pos_right (by norm_num : (0:ℚ) < 1000)).mpr h1

/-- C6: the variant tag of a query result fully determines the render path
of `OutputParser.parse` and exactly one widget call happens: a
dataframe-tagged result goes to the tabular view, a plot-tagged result goes
to the image view and never to the tabular view, and any other result is
written as plain text. -/
theorem outputParser_variant_determines_render (r : PandasResult) :
    (OutputParser_parse r).length = 1 ∧
    (r.ty = "dataframe" →
      OutputParser_parse r = [RenderEvent.dataframeView r.value]) ∧
    (r.ty = "plot" →
      OutputParser_parse r = [RenderEvent.imageView r.value] ∧
      ∀ v, RenderEvent.dataframeView v ∉ OutputParser_parse r) ∧
    (r.ty ≠ "dataframe" → r.ty ≠ "plot" →
      OutputParser_parse r = [RenderEvent.textView r.value]) := by
  unfold OutputParser_parse
  by_cases h1 : r.ty = "dataframe" <;> by_cases h2 : r.ty = "plot" <;>
    simp [h1, h2]

/-- Witness for C6: a scalar result "42" renders as the text "42" with no
image or table widget; a plot result renders as an image; a dataframe
result renders as a table. -/
theorem outputParser_variant_witness :
    OutputParser_parse ⟨"string", "42"⟩ = [RenderEvent.textView "42"] ∧
    OutputParser_parse ⟨"plot", "img.png"⟩
      = [RenderEvent.imageView "img.png"] ∧
    OutputParser_parse ⟨"dataframe", "tbl"⟩
      = [RenderEvent.dataframeView "tbl"] := by
  refine ⟨?_, ?_, ?_⟩
  · exact (outputParser_variant_determines_render ⟨"string", "42"⟩).2.2.2
      (by decide) (by decide)
  · exact ((outputParser_variant_determines_render
      ⟨"plot", "img.png"⟩).2.2.1 rfl).1
  · exact (outputParser_variant_determines_render
      ⟨"dataframe", "tbl"⟩).2.1 rfl

/-- C3: line 100 of the source, the with-statement wrapping the chat
dispatch, does not parse under the with-statement grammar: the module is a
syntax error, so no engine failure is ever caught at the dispatch boundary
and no new prompt can be accepted. -/
theorem line100_with_stmt_not_python :
    parseWithStmt line100Tokens = none := rfl

/-- C4: the tokens after `as` on line 100 denote the conditional expression
`cb if llm_choice == "OpenAI" else None`, which is not a valid assignment
target (CPython: cannot assign to conditional expression); hence the
dispatch of lines 100-109 never runs and neither response nor usage record
is ever produced for either backend. -/
theorem line100_as_target_not_assignable :
    parseExpression line100AsTargetTokens = some (line100AsTarget, []) ∧
    validAssignTarget line100AsTarget = false :=
  ⟨rfl, rfl⟩

/-- Helper: the record loop succeeds and zips header keys with the row
segment it reads, when the keys are distinct, fresh for the accumulated
dict, and the indices stay in bounds. -/
theorem buildRecordGo_ok (row : List String) :
    ∀ (ks : List String) (i : Nat) (d : List (String × String)),
      ks.Nodup → (∀ k ∈ ks, ∀ p ∈ d, p.1 ≠ k) → i + ks.length ≤ row.length →
      buildRecordGo row ks i d
        = Except.ok (d ++ ks.zip ((row.drop i).take ks.length)) := by
  intro ks
  induction ks with
  | nil =>
    intro i d _ _ _
    simp [buildRecordGo]
  | cons k ks ih =>
    intro i d hnd hfresh hlen
    have hi : i < row.length := by
      simp only [List.length_cons] at hlen; omega
    have hrowi : row[i]? = some row[i] := List.getElem?_eq_getElem hi
    have hnotin : k ∉ d.map Prod.fst := by
      intro hmem
      obtain ⟨p, hp, hpk⟩ := List.mem_map.mp hmem
      exact hfresh k (List.mem_cons_self _ _) p hp hpk
    have hins : pyDictInsert d k row[i] = d ++ [(k, row[i])] := by
      unfold pyDictInsert
      rw [if_neg hnotin]
    have hfresh' : ∀ k' ∈ ks, ∀ p ∈ d ++ [(k, row[i])], p.1 ≠ k' := by
      intro k' hk' p hp
      rcases List.mem_append.mp hp with hpd | hpk
      · exact hfresh k' (List.mem_cons_of_mem _ hk') p hpd
      · have hpe : p = (k, row[i]) := by simpa using hpk
        subst hpe
        intro hkk'
        have hkk2 : k = k' := hkk'
        exact (List.nodup_cons.mp hnd).1 (by rw [hkk2]; exact hk')
    have hlen' : (i + 1) + ks.length ≤ row.length := by
      simp only [List.length_cons] at hlen; omega
    have hrec := ih (i + 1) (d ++ [(k, row[i])]) (List.nodup_cons.mp hnd).2
      hfresh' hlen'
    simp only [buildRecordGo, hrowi, hins, hrec, List.length_cons]
    rw [List.drop_eq_getElem_cons hi, List.take_succ_cons, List.zip_cons_cons]
    simp [List.append_assoc]

/-- Helper: the record loop raises IndexError when the row runs out before
the header keys do. -/
theorem buildRecordGo_err (row : List String) :
    ∀ (ks : List String) (i : Nat) (d : List (String × String)),
      i ≤ row.length → row.length < i + ks.length →
      buildRecordGo row ks i d = Except.error PyError.indexError := by
  intro ks
  induction ks with
  | nil =>
    intro i d h1 h2
    exfalso
    simp only [List.length_nil, Nat.add_zero] at h2
    omega
  | cons k ks ih =>
    intro i d h1 h2
    by_cases hi : i < row.length
    · have hrowi : row[i]? = some row[i] := List.getElem?_eq_getElem hi
      simp only [buildRecordGo, hrowi]
      apply ih (i + 1) _ hi
      simp only [List.length_cons] at h2
      omega
    · have hrowi : row[i]? = none := by
        rw [List.getElem?_eq_none]
        omega
      simp only [buildRecordGo, hrowi]

/-- Helper: the record loop succeeds whenever the row is long enough. -/
theorem buildRecordGo_isOk (row : List String) :
    ∀ (ks : List String) (i : Nat) (d : List (String × String)),
      i + ks.length ≤ row.length →
      ∃ rec, buildRecordGo row ks i d = Except.ok rec := by
  intro ks
  induction ks with
  | nil =>
    intro i d _
    exact ⟨d, rfl⟩
  | cons k ks ih =>
    intro i d hlen
    have hi : i < row.length := by
      simp only [List.length_cons] at hlen; omega
    have hrowi : row[i]? = some row[i] := List.getElem?_eq_getElem hi
    simp only [buildRecordGo, hrowi]
    apply ih
    simp only [List.length_cons] at hlen
    omega

/-- Helper: the record loop reads only indices below `W`, so truncating the
row at `W` does not change it. -/
theorem buildRecordGo_take (row : List String) (W : Nat) :
    ∀ (ks : List String) (i : Nat) (d : List (String × String)),
      i + ks.length ≤ W →
      buildRecordGo row ks i d = buildRecordGo (row.take W) ks i d := by
  intro ks
  induction ks with
  | nil =>
    intro i d _
    rfl
  | cons k ks ih =>
    intro i d h
    have hiW : i < W := by
      simp only [List.length_cons] at h; omega
    have heq : (row.take W)[i]? = row[i]? := List.getElem?_take_of_lt hiW
    simp only [buildRecordGo, heq]
    cases hrow : row[i]? with
    | some v =>
      apply ih
      simp only [List.length_cons] at h
      omega
    | none => rfl

/-- Helper: with pairwise-distinct header names and a long-enough row, the
record is the header zipped with the row's first `len(header)` fields. -/
theorem buildRecord_ok_zip (header row : List String) (hnd : header.Nodup)
    (hlen : header.length ≤ row.length) :
    buildRecord header row
      = Except.ok (header.zip (row.take header.length)) := by
  have h := buildRecordGo_ok row header 0 [] hnd (by simp) (by omega)
  simpa using h

/-- Helper: a row shorter than the header raises IndexError. -/
theorem buildRecord_err (header row : List String)
    (h : row.length < header.length) :
    buildRecord header row = Except.error PyError.indexError :=
  buildRecordGo_err row header 0 [] (Nat.zero_le _) (by omega)

/-- Helper: a row at least as long as the header yields a record. -/
theorem buildRecord_isOk (header row : List String)
    (h : header.length ≤ row.length) :
    ∃ rec, buildRecord header row = Except.ok rec :=
  buildRecordGo_isOk row header 0 [] (by omega)

/-- Helper: a record only depends on the first `len(header)` row fields. -/
theorem buildRecord_take (header row : List String) :
    buildRecord header row = buildRecord header (row.take header.length) :=
  buildRecordGo_take row header.length header 0 [] (by omega)

/-- Helper: when every row builds the record `g row`, the comprehension
returns the mapped list. -/
theorem buildRecords_ok_of (header : List String)
    (g : List String → List (String × String)) :
    ∀ (data : List (List String)),
      (∀ r ∈ data, buildRecord header r = Except.ok (g r)) →
      buildRecords header data = Except.ok (data.map g) := by
  intro data
  induction data with
  | nil => intro _; rfl
  | cons a as ih =>
    intro h
    have ha := h a (List.mem_cons_self _ _)
    have has := ih (fun r hr => h r (List.mem_cons_of_mem _ hr))
    simp only [buildRecords, ha, has, List.map_cons]

/-- Helper: the comprehension is unchanged under a pointwise-equal row
transformation. -/
theorem buildRecords_ext (header : List String)
    (t : List String → List String) :
    ∀ (data : List (List String)),
      (∀ r ∈ data, buildRecord header r = buildRecord header (t r)) →
      buildRecords header data = buildRecords header (data.map t) := by
  intro data
  induction data with
  | nil => intro _; rfl
  | cons a as ih =>
    intro h
    have ha := h a (List.mem_cons_self _ _)
    have has := ih (fun r hr => h r (List.mem_cons_of_mem _ hr))
    simp only [List.map_cons, buildRecords, ← ha, ← has]

/-- Helper: when every row is long enough, the comprehension returns as
many records as there are data rows. -/
theorem buildRecords_length (header : List String) :
    ∀ (data : List (List String)),
      (∀ r ∈ data, header.length ≤ r.length) →
      ∃ recs, buildRecords header data = Except.ok recs ∧
        recs.length = data.length := by
  intro data
  induction data with
  | nil => intro _; exact ⟨[], rfl, rfl⟩
  | cons a as ih =>
    intro h
    obtain ⟨rec, hrec⟩ := buildRecord_isOk header a (h a (List.mem_cons_self _ _))
    obtain ⟨recs, hrecs, hlen⟩ := ih (fun r hr => h r (List.mem_cons_of_mem _ hr))
    refine ⟨rec :: recs, ?_, by simp [hlen]⟩
    simp only [buildRecords, hrec, hrecs]

/-- Helper: a too-short row anywhere in the data makes the comprehension
raise IndexError. -/
theorem buildRecords_err (header : List String) :
    ∀ (data : List (List String)),
      (∃ r ∈ data, r.length < header.length) →
      buildRecords header data = Except.error PyError.indexError := by
  intro data
  induction data with
  | nil =>
    rintro ⟨r, hr, -⟩
    cases hr
  | cons a as ih =>
    rintro ⟨r, hr, hlt⟩
    by_cases ha : a.length < header.length
    · simp only [buildRecords, buildRecord_err header a ha]
    · obtain ⟨rec, hrec⟩ := buildRecord_isOk header a (by omega)
      have htail : ∃ r ∈ as, r.length < header.length := by
        rcases List.mem_cons.mp hr with rfl | hmem
        · omega
        · exact ⟨r, hmem, hlt⟩
      simp only [buildRecords, hrec, ih htail]

/-- Helper: one step of the column fold. -/
theorem addRecordCols_cons (acc : List String) (kv : String × String)
    (rec : List (String × String)) :
    addRecordCols acc (kv :: rec)
      = addRecordCols (if kv.1 ∈ acc then acc else acc ++ [kv.1]) rec := rfl

/-- Helper: folding a record whose keys are already columns changes
nothing. -/
theorem addRecordCols_subset (rec : List (String × String)) :
    ∀ (acc : List String), (∀ kv ∈ rec, kv.1 ∈ acc) →
      addRecordCols acc rec = acc := by
  induction rec with
  | nil => intro acc _; rfl
  | cons kv rec ih =>
    intro acc h
    rw [addRecordCols_cons, if_pos (h kv (List.mem_cons_self _ _))]
    exact ih acc (fun kv' h' => h kv' (List.mem_cons_of_mem _ h'))

/-- Helper: folding a record with distinct keys none of which is a column
yet appends the keys in order. -/
theorem addRecordCols_fresh (rec : List (String × String)) :
    ∀ (acc : List String), (rec.map Prod.fst).Nodup →
      (∀ kv ∈ rec, kv.1 ∉ acc) →
      addRecordCols acc rec = acc ++ rec.map Prod.fst := by
  induction rec with
  | nil => intro acc _ _; simp [addRecordCols]
  | cons kv rec ih =>
    intro acc hnd hf
    rw [List.map_cons] at hnd
    have hhead : kv.1 ∉ rec.map Prod.fst := (List.nodup_cons.mp hnd).1
    have hnd' : (rec.map Prod.fst).Nodup := (List.nodup_cons.mp hnd).2
    rw [addRecordCols_cons, if_neg (hf kv (List.mem_cons_self _ _))]
    have hf' : ∀ kv' ∈ rec, kv'.1 ∉ acc ++ [kv.1] := by
      intro kv' h'
      rw [List.mem_append]
      rintro (hin | hone)
      · exact hf kv' (List.mem_cons_of_mem _ h') hin
      · have he : kv'.1 = kv.1 := by simpa using hone
        exact hhead (he ▸ List.mem_map_of_mem Prod.fst h')
    rw [ih (acc ++ [kv.1]) hnd' hf']
    simp [List.append_assoc]

/-- Helper: folding records whose keys are all existing columns is the
identity on the column list. -/
theorem foldl_addRecordCols_fixed (acc : List String) :
    ∀ (records : List (List (String × String))),
      (∀ rec ∈ records, ∀ kv ∈ rec, kv.1 ∈ acc) →
      records.foldl addRecordCols acc = acc := by
  intro records
  induction records with
  | nil => intro _; rfl
  | cons rec recs ih =>
    intro h
    rw [List.foldl_cons, addRecordCols_subset rec acc (h rec (List.mem_cons_self _ _))]
    exact ih (fun rec' h' kv hkv => h rec' (List.mem_cons_of_mem _ h') kv hkv)

/-- Helper: the columns of `pd.DataFrame(records)` are exactly the header
when every record's key list is the (duplicate-free) header and there is at
least one record. -/
theorem pd_DataFrame_columns (header : List String) (hnd : header.Nodup) :
    ∀ (records : List (List (String × String))), records ≠ [] →
      (∀ rec ∈ records, rec.map Prod.fst = header) →
      (pd_DataFrame records).columns = header := by
  intro records hne hkeys
  cases records with
  | nil => exact absurd rfl hne
  | cons rec0 rest =>
    show (rec0 :: rest).foldl addRecordCols [] = header
    rw [List.foldl_cons]
    have hk0 := hkeys rec0 (List.mem_cons_self _ _)
    have h0 : addRecordCols [] rec0 = header := by
      have := addRecordCols_fresh rec0 [] (by rw [hk0]; exact hnd) (by simp)
      simpa [hk0] using this
    rw [h0]
    apply foldl_addRecordCols_fixed
    intro rec hrec kv hkv
    have hk := hkeys rec (List.mem_cons_of_mem _ hrec)
    rw [← hk]
    exact List.mem_map_of_mem Prod.fst hkv

/-- Helper: `pd.DataFrame(records)` has one row per record. -/
theorem pd_DataFrame_rows_length (records : List (List (String × String))) :
    (pd_DataFrame records).rows.length = records.length := by
  simp [pd_DataFrame]

/-- Counterexample to C2 as stated: with the duplicate header `a,a` (width
2) and one data row, the loaded table has the single column `a`, not two
columns; and with header `a,b` and zero data rows the loaded table has no
columns at all (`pd.DataFrame([])`), not two. -/
theorem write_read_header_shape_counterexample :
    (write_read (Except.ok [["a", "a"], ["x", "y"]])).map DataFrame.columns
      = Except.ok ["a"] ∧
    (write_read (Except.ok [["a", "a"], ["x", "y"]])).map DataFrame.columns
      ≠ Except.ok ["a", "a"] ∧
    (write_read (Except.ok [["a", "b"]])).map DataFrame.columns
      = Except.ok [] ∧
    (write_read (Except.ok [["a", "b"]])).map DataFrame.columns
      ≠ Except.ok ["a", "b"] := by
  have h1 : (write_read (Except.ok [["a", "a"], ["x", "y"]])).map DataFrame.columns
      = Except.ok ["a"] := rfl
  have h2 : (write_read (Except.ok [["a", "b"]])).map DataFrame.columns
      = Except.ok [] := rfl
  refine ⟨h1, ?_, h2, ?_⟩
  · rw [h1]
    intro h
    simp at h
  · rw [h2]
    intro h
    simp at h

/-- C2 amended: for every CSV whose header fields are pairwise distinct and
that has at least one data row, each data row of the header's width, the
loader produces a table with one row per data row whose column names equal
the header fields in order. -/
theorem write_read_unique_header_shape (header : List String)
    (data : List (List String)) (hnd : header.Nodup)
    (hlen : ∀ r ∈ data, r.length = header.length) (hne : data ≠ []) :
    (write_read (Except.ok (header :: data))).map DataFrame.columns
      = Except.ok header ∧
    (write_read (Except.ok (header :: data))).map (fun df => df.rows.length)
      = Except.ok data.length := by
  have hrecs : buildRecords header data
      = Except.ok (data.map (fun r => header.zip (r.take header.length))) :=
    buildRecords_ok_of header _ data (fun r hr =>
      buildRecord_ok_zip header r hnd (le_of_eq (hlen r hr).symm))
  have hkeys : ∀ rec ∈ data.map (fun r => header.zip (r.take header.length)),
      rec.map Prod.fst = header := by
    intro rec hrec
    obtain ⟨r, hr, rfl⟩ := List.mem_map.mp hrec
    apply List.map_fst_zip
    have hr' := hlen r hr
    simp [List.length_take, hr']
  have hne' : data.map (fun r => header.zip (r.take header.length)) ≠ [] := by
    intro h
    exact hne (List.map_eq_nil_iff.mp h)
  have hcols := pd_DataFrame_columns header hnd _ hne' hkeys
  have hrows := pd_DataFrame_rows_length
    (data.map (fun r => header.zip (r.take header.length)))
  have key : write_read (Except.ok (header :: data))
      = Except.ok (pd_DataFrame
          (data.map (fun r => header.zip (r.take header.length)))) := by
    simp only [write_read, hrecs]
  rw [key]
  constructor
  · simp only [Except.map, hcols]
  · simp only [Except.map, hrows, List.length_map]

/-- Witness for the amended C2 theorem: header `id,name` with the two data
rows `1,a` and `2,b` yields a two-row table with columns `id`, `name`. -/
theorem write_read_unique_header_shape_witness :
    (write_read (Except.ok [["id", "name"], ["1", "a"], ["2", "b"]])).map
        DataFrame.columns
      = Except.ok ["id", "name"] ∧
    (write_read (Except.ok [["id", "name"], ["1", "a"], ["2", "b"]])).map
        (fun df => df.rows.length)
      = Except.ok 2 :=
  write_read_unique_header_shape ["id", "name"] [["1", "a"], ["2", "b"]]
    (by decide) (by decide) (by decide)

/-- C10: a data set whose rows are all at least as wide as the header is
indexed in bounds and loads, with one table row per data row; fields beyond
the header width are silently discarded (truncating every row at the header
width changes nothing); a data row shorter than the header makes the load
fail with IndexError instead of producing a table. -/
theorem write_read_row_width_behaviour (header : List String)
    (data : List (List String)) :
    ((∀ r ∈ data, header.length ≤ r.length) →
      (write_read (Except.ok (header :: data))).map (fun df => df.rows.length)
        = Except.ok data.length) ∧
    write_read (Except.ok (header :: data))
      = write_read (Except.ok
          (header :: data.map (fun r => r.take header.length))) ∧
    ((∃ r ∈ data, r.length < header.length) →
      write_read (Except.ok (header :: data))
        = Except.error (WRError.py PyError.indexError)) := by
  refine ⟨?_, ?_, ?_⟩
  · intro h
    obtain ⟨recs, hrecs, hlen⟩ := buildRecords_length header data h
    simp only [write_read, hrecs, Except.map, pd_DataFrame_rows_length, hlen]
  · have hext := buildRecords_ext header (fun r => r.take header.length) data
      (fun r _ => buildRecord_take header r)
    simp only [write_read, hext]
  · intro h
    simp only [write_read, buildRecords_err header data h]

/-- Witness for C10: with header width 2, the row `1,2,3` loads and equals
the load of its two-field truncation, while the row `1` makes the load fail
with IndexError. -/
theorem write_read_row_width_witness :
    (write_read (Except.ok [["a", "b"], ["1", "2", "3"]])).map
        (fun df => df.rows.length)
      = Except.ok 1 ∧
    write_read (Except.ok [["a", "b"], ["1", "2", "3"]])
      = write_read (Except.ok [["a", "b"], ["1", "2"]]) ∧
    write_read (Except.ok [["a", "b"], ["1"]])
      = Except.error (WRError.py PyError.indexError) := by
  refine ⟨?_, ?_, ?_⟩
  · exact (write_read_row_width_behaviour ["a", "b"] [["1", "2", "3"]]).1
      (by decide)
  · exact (write_read_row_width_behaviour ["a", "b"] [["1", "2", "3"]]).2.1
  · exact (write_read_row_width_behaviour ["a", "b"] [["1"]]).2.2
      ⟨["1"], by decide, by decide⟩

/-- Counterexample to C7 as stated: a blob-not-found failure on a concrete
nonempty bucket and object name produces no UI message at all, and the run
ends as an exception no repository code catches. -/
theorem gcs_blob_not_found_counterexample :
    gcsBranch "mybucket" "data.csv" (Except.error GcsError.blobNotFound)
      = (GcsOutcome.uncaughtException (WRError.storage GcsError.blobNotFound),
         []) := rfl

/-- C7 amended: with a nonexistent bucket or object the loader fails with
the blob-not-found storage error, and `main`'s Google Storage branch, which
wraps the `write_read` call in no exception handler, ends as an uncaught
exception having emitted no UI event; only the hosting framework, outside
this repository, decides what happens to the process then. -/
theorem gcs_blob_error_propagates (bucket blob : String) (e : GcsError)
    (hb : bucket ≠ "") (ho : blob ≠ "") :
    write_read (Except.error e) = Except.error (WRError.storage e) ∧
    gcsBranch bucket blob (Except.error e)
      = (GcsOutcome.uncaughtException (WRError.storage e), []) := by
  refine ⟨rfl, ?_⟩
  unfold gcsBranch
  rw [if_neg (by simp [hb, ho])]
  rfl

/-- Witness for the amended C7 theorem at a concrete bucket, object and
blob-not-found error. -/
theorem gcs_blob_error_propagates_witness :
    write_read (Except.error GcsError.blobNotFound)
      = Except.error (WRError.storage GcsError.blobNotFound) ∧
    gcsBranch "bkt" "obj.csv" (Except.error GcsError.blobNotFound)
      = (GcsOutcome.uncaughtException (WRError.storage GcsError.blobNotFound),
         []) :=
  gcs_blob_error_propagates "bkt" "obj.csv" GcsError.blobNotFound
    (by decide) (by decide)

/-- C5: the `SmartDataframe` invocation of lines 93-95 passes the chosen
backend as the config `llm`, an `enable_cache` setting of `False` (in the
constructor's second positional argument), `conversational` `False`, and
the `OutputParser` hook as `response_parser`; the backend radio value
"OpenAI" selects the OpenAI backend with the OpenAI key and any other value
selects Google Gemini with the Google key. -/
theorem sdf_invocation_config (addon llm_choice openai_key google_key :
    String) :
    (sdfCall addon (chooseLLM llm_choice openai_key google_key)).config.lookup
        "llm"
      = some (ConfigVal.llmVal (chooseLLM llm_choice openai_key google_key)) ∧
    ((sdfCall addon (chooseLLM llm_choice openai_key google_key)).second_arg
        ++ (sdfCall addon (chooseLLM llm_choice openai_key google_key)).config).lookup
        "enable_cache"
      = some (ConfigVal.boolVal false) ∧
    (sdfCall addon (chooseLLM llm_choice openai_key google_key)).config.lookup
        "conversational"
      = some (ConfigVal.boolVal false) ∧
    (sdfCall addon (chooseLLM llm_choice openai_key google_key)).config.lookup
        "response_parser"
      = some (ConfigVal.outputParserHook) ∧
    chooseLLM "OpenAI" openai_key google_key
      = LLMBackend.openAI openai_key ∧
    chooseLLM "Google Gemini" openai_key google_key
      = LLMBackend.googleGemini google_key := by
  refine ⟨rfl, rfl, rfl, rfl, rfl, rfl⟩

/-- C9: when the column-descriptor radio says "No", the literal string
"None" is passed as the field descriptions and the run proceeds to backend
selection, engine construction (with field descriptions "None") and, for a
nonempty prompt, dispatch; when the radio says "Yes" and the description
text is left empty, the empty string is falsy and the whole
backend-selection/prompt/dispatch region is skipped. -/
theorem col_descriptor_branching (descText llm_choice prompt openai_key
    google_key : String) :
    addon_value "No" descText = "None" ∧
    FlowStep.selectBackend
      ∈ localFlowTail "No" descText llm_choice prompt openai_key google_key ∧
    FlowStep.initEngine
        (sdfCall "None" (chooseLLM llm_choice openai_key google_key))
      ∈ localFlowTail "No" descText llm_choice prompt openai_key google_key ∧
    (prompt ≠ "" →
      FlowStep.dispatch
        ∈ localFlowTail "No" descText llm_choice prompt openai_key google_key) ∧
    addon_value "Yes" "" = "" ∧
    localFlowTail "Yes" "" llm_choice prompt openai_key google_key = [] := by
  have hno : addon_value "No" descText = "None" := rfl
  have hyes : addon_value "Yes" "" = "" := rfl
  refine ⟨hno, ?_, ?_, ?_, hyes, ?_⟩
  · simp [localFlowTail, hno]
  · simp [localFlowTail, hno]
  · intro hp
    simp [localFlowTail, hno, hp]
  · simp [localFlowTail, hyes]

/-- Witness for C9 at concrete inputs: with "No" and the prompt
"plot sales" the dispatch step is reached; with "Yes" and an empty
description nothing in the region runs. -/
theorem col_descriptor_branching_witness :
    FlowStep.dispatch
      ∈ localFlowTail "No" "" "OpenAI" "plot sales" "sk-key" "g-key" ∧
    localFlowTail "Yes" "" "OpenAI" "plot sales" "sk-key" "g-key" = [] :=
  ⟨(col_descriptor_branching "" "OpenAI" "plot sales" "sk-key" "g-key").2.2.2.1
      (by decide),
   (col_descriptor_branching "" "OpenAI" "plot sales" "sk-key"
      "g-key").2.2.2.2.2⟩
